import Mathlib

/-!
Shallow embedding of `src/app.py` (mealplanner-chatbot): the response
formatter `clean_response`, the nutrition client `get_food_data`, and the
`/chat` request handler `chat`, together with theorems settling the claims
about them.

Conventions of the embedding:
* Python strings are Lean `String`s / `List Char`.
* Python `dict` lookups with defaults become `Option` fields with `getD`.
* Nutrient numbers (Python floats) are modelled as exact rationals `ℚ`;
  Python's fixed-point float formatting (`:.0f`, `:.1f`) rounds half to
  even, modelled by `roundHalfEven`.
* External effects (the Edamam HTTP call and the Gemini generative call)
  are modelled by an explicit environment `Env` describing each call's
  outcome, including the exceptions it may raise.
-/

namespace MealPlanner

/-! ### Responder formatter: `clean_response`, src/app.py lines 44-61 -/

/-- The fixed fallback sentence of `clean_response` (line 46). -/
def FALLBACK : String := "Sorry, I couldn't find information."

/-- The whitespace characters stripped by Python's `str.strip()` (ASCII range). -/
def pyIsSpace (c : Char) : Bool :=
  c == ' ' || c == '\t' || c == '\n' || c == '\x0d' || c == '\x0b' || c == '\x0c'

/-- Python `str.strip()`: drop leading and trailing whitespace (line 48 / line 52). -/
def stripChars (l : List Char) : List Char :=
  ((l.dropWhile pyIsSpace).reverse.dropWhile pyIsSpace).reverse

/-- Lines 49-51 of the source.  The two regex passes
`re.sub(r'\x7b0\x7d(.*?)\x7b0\x7d', r'\x7b1\x7d', ...)` delete only the matched
asterisk markers and keep each captured group verbatim, and
`.replace("**", "").replace("*", "")` then deletes every remaining
asterisk; no non-asterisk character is removed or reordered by any of the
three steps, so their composition removes exactly the `*` characters. -/
def removeStars (l : List Char) : List Char :=
  l.filter (fun c => c ≠ '*')

/-- `re.sub(r'\n+', ' ', text)` (line 52): replace every maximal run of
newline characters with a single space. -/
def collapseNewlines : List Char → List Char
  | [] => []
  | [c] => if c = '\n' then [' '] else [c]
  | c :: c₂ :: rest =>
    if c = '\n' then
      if c₂ = '\n' then collapseNewlines (c₂ :: rest)
      else ' ' :: collapseNewlines (c₂ :: rest)
    else c :: collapseNewlines (c₂ :: rest)

/-- Index of the last character satisfying `f`, or `none` (Python `str.rfind`
generalised to a predicate). -/
def rfindP : List Char → (Char → Bool) → Option Nat
  | [], _ => none
  | c :: rest, f =>
    match rfindP rest f with
    | some j => some (j + 1)
    | none => if f c then some 0 else none

/-- Python `text.rfind(p)` restricted to the guarded use on line 58: index of
the last occurrence of `p`. -/
def rfind (l : List Char) (p : Char) : Option Nat :=
  rfindP l (fun c => c == p)

/-- The truncation step of `clean_response` (lines 54-59): if the text
exceeds 250 characters, take the first 250, then for `'.'`, `'!'`, `'?'` in
that order, if the character occurs in the last 20 characters of the
truncation, cut at (and including) its last occurrence and stop. -/
def truncStep (l : List Char) : List Char :=
  if 250 < l.length then
    let t := l.take 250
    let last20 := t.drop (t.length - 20)
    if last20.contains '.' then t.take ((rfind t '.').getD 0 + 1)
    else if last20.contains '!' then t.take ((rfind t '!').getD 0 + 1)
    else if last20.contains '?' then t.take ((rfind t '?').getD 0 + 1)
    else t
  else l

/-- The cleaning pipeline of lines 48-52 applied to a non-empty input:
strip, remove asterisks, collapse newline runs to single spaces, strip. -/
def cleanedText (s : String) : List Char :=
  stripChars (collapseNewlines (removeStars (stripChars s.data)))

/-- `clean_response` (lines 44-61).  Python's `if not text` is true exactly
for the empty string (an absent/`None` reply is modelled as `""`). -/
def clean_response (text : String) : String :=
  if text = "" then FALLBACK
  else String.mk (truncStep (cleanedText text))

/-! ### Nutrition client: `get_food_data`, src/app.py lines 66-80 -/

/-- The `totalNutrients` object of an Edamam response: for each fixed
nutrient key, `some q` when the key is present with a `quantity` field of
value `q`; `none` when the key or its `quantity` field is absent (the
source defaults either case to `0` via `.get('K', \x7b\x7d).get('quantity', 0)`). -/
structure TotalNutrients where
  PROCNT : Option ℚ
  FAT : Option ℚ
  CHOCDF : Option ℚ
deriving DecidableEq

/-- A parsed Edamam response body (a JSON object): optional `calories`
number and optional `totalNutrients` object. -/
structure FoodData where
  calories : Option ℚ
  totalNutrients : Option TotalNutrients
deriving DecidableEq

/-- Outcome of the outbound `requests.get` call in `get_food_data`:
either a response with a status code and a body (`none` when the body is
not parseable JSON, in which case `res.json()` raises), or a raised
exception (`err`: connection error, the 5-second client timeout, or the
process alarm firing during the call — all caught by the bare `except:`). -/
inductive HttpOutcome where
  | ok (status : Nat) (body : Option FoodData)
  | err
deriving DecidableEq

/-- `get_food_data` (lines 66-80): returns the parsed JSON body when the
status code is 200, and `None` on any other status or any exception
(including a body that fails to parse).  Total — never raises. -/
def get_food_data (o : HttpOutcome) : Option FoodData :=
  match o with
  | .err => none
  | .ok status body => if status = 200 then body else none

/-! ### Request handler: `chat`, src/app.py lines 92-138 -/

/-- Python `str.lower()` on the ASCII range (the keyword matching on
line 105-106 only involves ASCII keywords). -/
def pyLowerChar (c : Char) : Char :=
  if c.toNat ≥ 65 && c.toNat ≤ 90 then Char.ofNat (c.toNat + 32) else c

/-- Lowercased message, `user_input.lower()`. -/
def pyLower (s : String) : String :=
  String.mk (s.data.map pyLowerChar)

/-- `pat` is a prefix of `s` (helper for substring containment). -/
def listStartsWith : List Char → List Char → Bool
  | _, [] => true
  | [], _ :: _ => false
  | c :: cs, p :: ps => c == p && listStartsWith cs ps

/-- Python's `pat in s` substring containment on character lists. -/
def listContainsSub : List Char → List Char → Bool
  | [], pat => pat.isEmpty
  | c :: cs, pat => listStartsWith (c :: cs) pat || listContainsSub cs pat

/-- The keyword list of line 106 of the source. -/
def keywords : List String :=
  ["calorie", "nutrition", "protein", "fat", "carbs", "vitamin"]

/-- The classification test of lines 105-106:
`any(word in user_input.lower() for word in keywords)`. -/
def isNutritionQuery (msg : String) : Bool :=
  keywords.any (fun w => listContainsSub (pyLower msg).data w.data)

/-- Round the fraction `num / den` (with `den > 0`) to the nearest
integer, ties to even — the rounding used by Python's fixed-point float
formatting.  `r` is the remainder of `num` after the floor, so the
fractional part is `r / den`, compared with `1/2` via `2r` against `den`. -/
def roundHalfEven (num : ℤ) (den : ℕ) : ℤ :=
  let n := Int.fdiv num (Int.ofNat den)
  let r := num - n * Int.ofNat den
  if 2 * r < Int.ofNat den then n
  else if Int.ofNat den < 2 * r then n + 1
  else if Int.emod n 2 = 0 then n else n + 1

/-- Decimal digits of `n` padded to `prec` digits. -/
def padDigits (n : Nat) (prec : Nat) : String :=
  let ds := toString n
  String.mk (List.replicate (prec - ds.length) '0') ++ ds

/-- Python `format(x, '.precf')` for a rational value: scale by
`10 ^ prec`, round half to even, and print with `prec` digits after the
point (no point when `prec = 0`).  The value `q * 10 ^ prec` is the exact
fraction `q.num * 10 ^ prec / q.den`.  The negative-zero rendering of
Python floats is not modelled; nutrient quantities are nonnegative. -/
def formatFixed (prec : Nat) (q : ℚ) : String :=
  let scaled := roundHalfEven (q.num * Int.ofNat (10 ^ prec)) q.den
  let sign := if scaled < 0 then "-" else ""
  let m := scaled.natAbs
  if prec = 0 then sign ++ toString m
  else sign ++ toString (m / 10 ^ prec) ++ "." ++ padDigits (m % 10 ^ prec) prec

/-- The nutrition reply template of lines 111-116, built from the record's
fields: calories with zero decimals, each macro quantity with one decimal,
each defaulting to 0 when absent. -/
def nutritionReply (fd : FoodData) (tn : TotalNutrients) : String :=
  "🍛 " ++ formatFixed 0 (fd.calories.getD 0) ++ " kcal | " ++
  "Protein: " ++ formatFixed 1 (tn.PROCNT.getD 0) ++ " g | " ++
  "Fat: " ++ formatFixed 1 (tn.FAT.getD 0) ++ " g | " ++
  "Carbs: " ++ formatFixed 1 (tn.CHOCDF.getD 0) ++ " g"

/-- Outcome of a `model.generate_content(...).text` call: the returned
text, or a `TimeoutException` raised by the SIGALRM handler when the
15-second alarm fires during the call, or any other exception. -/
inductive CallResult where
  | ok (text : String)
  | timeout
  | error
deriving DecidableEq

/-- The per-request environment: what each external call would do. -/
structure Env where
  foodOutcome : HttpOutcome
  genResult : CallResult
deriving DecidableEq

/-- The parsed JSON body of a `POST /chat` request: a JSON object whose
optional `"message"` field is a string, or a non-object body (`null`, an
array, a number...) on which `data.get` raises `AttributeError`. -/
inductive ReqBody where
  | obj (message : Option String)
  | nonObj
deriving DecidableEq

/-- What the handler produces: an HTTP response with a JSON reply body and
a status code, or an exception escaping the handler. -/
inductive ChatResult where
  | response (reply : String) (status : Nat)
  | exnPropagated
deriving DecidableEq

/-- A handler run: its result plus whether each external backend was
invoked during the run. -/
structure ChatOutcome where
  result : ChatResult
  nutritionCalled : Bool
  genCalled : Bool
deriving DecidableEq

/-- The generative call and the `except` clauses around it
(lines 118-133): a returned text is cleaned and sent with 200
(line 138), a `TimeoutException` yields the fixed timeout reply with 200
(lines 128-129), any other exception yields the fixed error reply with
500 (lines 131-133). -/
def genStep (env : Env) (nutr : Bool) : ChatOutcome :=
  match env.genResult with
  | .ok t => ⟨.response (clean_response t) 200, nutr, true⟩
  | .timeout => ⟨.response "⚠️ AI took too long. Try again." 200, nutr, true⟩
  | .error => ⟨.response "⚠ Something went wrong. Try again." 500, nutr, true⟩

/-- The `chat` handler (lines 92-138).  `data.get("message", "")` raises
before the `try` block when the body is not an object (`nonObj`); an
empty or missing message returns the fixed 400 reply before any outbound
call; otherwise the message is classified, and the nutrition branch is
taken when a keyword matches.  The guard
`food_data and "totalNutrients" in food_data` holds exactly when the
lookup returned an object containing `totalNutrients` (an object with
that key is nonempty, hence truthy); then the templated reply is cleaned
and sent with 200 and the generative backend is never invoked.
Otherwise the handler falls through to the generative call. -/
def chat (body : ReqBody) (env : Env) : ChatOutcome :=
  match body with
  | .nonObj => ⟨.exnPropagated, false, false⟩
  | .obj message =>
    let user_input := message.getD ""
    if user_input = "" then ⟨.response "Please ask something." 400, false, false⟩
    else if isNutritionQuery user_input then
      match get_food_data env.foodOutcome with
      | some fd =>
        match fd.totalNutrients with
        | some tn => ⟨.response (clean_response (nutritionReply fd tn)) 200, true, false⟩
        | none => genStep env true
      | none => genStep env true
    else genStep env false

/-! ### Definitions modelled from the claims' words (for refutation) -/

/-- The keyword set asserted by the classification claim: the source's
list plus `"ingredient"` and `"food"`. -/
def claimKeywords : List String :=
  ["calorie", "nutrition", "protein", "fat", "carbs", "vitamin", "ingredient", "food"]

/-- A sentence terminator, per the truncation claim. -/
def isTerm (c : Char) : Bool := c == '.' || c == '!' || c == '?'

/-- Modelled from the truncation claim's words: truncate to 250
characters, and if a sentence terminator occurs in the trailing 20
characters of the truncation, cut at (and including) the last occurrence
of a sentence terminator; otherwise keep the hard cut; trim surrounding
whitespace from the result. -/
def claimTrunc (l : List Char) : List Char :=
  let t := l.take 250
  if (t.drop 230).any isTerm then
    stripChars (t.take ((rfindP t isTerm).getD 0 + 1))
  else stripChars t

/-- Modelled from the amended truncation claim: truncate to 250
characters, then check `'.'`, `'!'`, `'?'` in that fixed order; for the
first of them occurring in the trailing 20 characters of the truncation,
cut at (and including) its last occurrence; otherwise keep the hard cut;
no whitespace trimming afterwards. -/
def truncSpec (l : List Char) : List Char :=
  let t := l.take 250
  match ['.', '!', '?'].filter (fun p => (t.drop 230).contains p) with
  | [] => t
  | p :: _ => t.take ((rfind t p).getD 0 + 1)

/-- `true` when the list has two consecutive whitespace characters. -/
def hasDoubleWhitespace : List Char → Bool
  | c₁ :: c₂ :: rest => (pyIsSpace c₁ && pyIsSpace c₂) || hasDoubleWhitespace (c₂ :: rest)
  | _ => false

/-- A 260-character input for the truncation claim: a period at index 235
and an exclamation mark at index 245, both inside the trailing-20 window
of the 250-character truncation. -/
def exC8 : String :=
  String.mk (List.replicate 235 'a' ++ '.' ::
    (List.replicate 9 'a' ++ '!' :: List.replicate 14 'a'))

/-- A 300-character input with a period at index 240 and no terminator
after it. -/
def ex300 : String :=
  String.mk (List.replicate 240 'a' ++ '.' :: List.replicate 59 'b')

/-! ### Helper lemmas -/

/-- The output of the newline-collapsing pass never contains a newline. -/
theorem collapseNewlines_not_mem : ∀ l : List Char, '\n' ∉ collapseNewlines l
  | [] => by simp [collapseNewlines]
  | [c] => by
    by_cases h : c = '\n'
    · simp [collapseNewlines, h]
    · simp only [collapseNewlines, if_neg h, List.mem_singleton]
      exact fun hc => h hc.symm
  | c :: c₂ :: rest => by
    have ih := collapseNewlines_not_mem (c₂ :: rest)
    by_cases h : c = '\n'
    · subst h
      by_cases h₂ : c₂ = '\n'
      · subst h₂
        simpa [collapseNewlines] using ih
      · intro hmem
        simp only [collapseNewlines, if_pos rfl, if_neg h₂] at hmem
        rcases List.mem_cons.mp hmem with hc | hc
        · exact absurd hc (by decide)
        · exact ih hc
    · intro hmem
      simp only [collapseNewlines, if_neg h] at hmem
      rcases List.mem_cons.mp hmem with hc | hc
      · exact h hc.symm
      · exact ih hc

/-- Stripping only removes characters. -/
theorem stripChars_subset {x : Char} {l : List Char} (hx : x ∈ stripChars l) : x ∈ l := by
  unfold stripChars at hx
  have h1 := List.mem_reverse.mp hx
  have h2 := (List.dropWhile_suffix pyIsSpace).subset h1
  have h3 := List.mem_reverse.mp h2
  exact (List.dropWhile_suffix pyIsSpace).subset h3

/-- Truncation only removes characters. -/
theorem truncStep_subset {x : Char} {l : List Char} (hx : x ∈ truncStep l) : x ∈ l := by
  unfold truncStep at hx
  split at hx
  · dsimp only at hx
    split at hx
    · exact List.mem_of_mem_take (List.mem_of_mem_take hx)
    · split at hx
      · exact List.mem_of_mem_take (List.mem_of_mem_take hx)
      · split at hx
        · exact List.mem_of_mem_take (List.mem_of_mem_take hx)
        · exact List.mem_of_mem_take hx
  · exact hx

/-- Asterisk removal only removes characters. -/
theorem removeStars_subset {x : Char} {l : List Char} (hx : x ∈ removeStars l) : x ∈ l :=
  List.mem_of_mem_filter hx

/-- A run through the generative step always invokes the generative backend. -/
theorem genStep_genCalled (env : Env) (b : Bool) : (genStep env b).genCalled = true := by
  cases h : env.genResult <;> simp [genStep, h]

/-- The generative step reports the nutrition-branch flag it was given. -/
theorem genStep_nutritionCalled (env : Env) (b : Bool) :
    (genStep env b).nutritionCalled = b := by
  cases h : env.genResult <;> simp [genStep, h]

/-- Every run of the handler on an object body is the 400 validation
reply, a nutrition-record reply, or a generative step. -/
theorem chat_obj_cases (message : Option String) (env : Env) :
    chat (ReqBody.obj message) env = ⟨.response "Please ask something." 400, false, false⟩ ∨
    (∃ fd tn, get_food_data env.foodOutcome = some fd ∧ fd.totalNutrients = some tn ∧
      chat (ReqBody.obj message) env =
        ⟨.response (clean_response (nutritionReply fd tn)) 200, true, false⟩) ∨
    (∃ b, chat (ReqBody.obj message) env = genStep env b) := by
  by_cases hm : message.getD "" = ""
  · exact Or.inl (by simp [chat, hm])
  · by_cases hq : isNutritionQuery (message.getD "") = true
    · cases hfd : get_food_data env.foodOutcome with
      | none => exact Or.inr (Or.inr ⟨true, by simp [chat, hm, hq, hfd]⟩)
      | some fd =>
        cases htn : fd.totalNutrients with
        | none => exact Or.inr (Or.inr ⟨true, by simp [chat, hm, hq, hfd, htn]⟩)
        | some tn =>
          exact Or.inr (Or.inl ⟨fd, tn, rfl, htn, by simp [chat, hm, hq, hfd, htn]⟩)
    · exact Or.inr (Or.inr ⟨false, by simp [chat, hm, hq]⟩)

/-- The handler takes the nutrition branch exactly when the keyword
classification matches. -/
theorem chat_nutritionCalled_eq (msg : String) (env : Env) (hm : msg ≠ "") :
    (chat (ReqBody.obj (some msg)) env).nutritionCalled = isNutritionQuery msg := by
  by_cases hq : isNutritionQuery msg = true
  · cases hfd : get_food_data env.foodOutcome with
    | none => simp [chat, hm, hq, hfd, genStep_nutritionCalled]
    | some fd =>
      cases htn : fd.totalNutrients with
      | none => simp [chat, hm, hq, hfd, htn, genStep_nutritionCalled]
      | some tn => simp [chat, hm, hq, hfd, htn]
  · have hq' : isNutritionQuery msg = false := by
      cases hiq : isNutritionQuery msg
      · rfl
      · exact absurd hiq hq
    simp [chat, hm, hq', genStep_nutritionCalled]

/-- The source truncation step agrees with its specification form once the
input exceeds 250 characters. -/
theorem truncStep_eq_truncSpec (l : List Char) (h : 250 < l.length) :
    truncStep l = truncSpec l := by
  have ht : (l.take 250).length = 250 := by
    rw [List.length_take]; omega
  simp only [truncStep, truncSpec, h, if_true, ht]
  norm_num
  by_cases h1 : '.' ∈ (l.take 250).drop 230
  · simp [h1, List.filter]
  · by_cases h2 : '!' ∈ (l.take 250).drop 230
    · simp [h1, h2, List.filter]
    · by_cases h3 : '?' ∈ (l.take 250).drop 230
      · simp [h1, h2, h3, List.filter]
      · simp [h1, h2, h3, List.filter]

/-! ### Claim theorems -/

/-- C2: whenever the deadline-expiry condition (`TimeoutException` from
the armed alarm) is raised during the generative call and reaches the
handler, the response is exactly the JSON reply
`⚠️ AI took too long. Try again.` with HTTP status 200 — the
success-range status of lines 128-129, not the 500 used for generic
exceptions. -/
theorem chat_timeout_reply (body : ReqBody) (env : Env)
    (hg : (chat body env).genCalled = true) (ht : env.genResult = CallResult.timeout) :
    (chat body env).result = ChatResult.response "⚠️ AI took too long. Try again." 200 := by
  cases body with
  | nonObj => exact absurd hg (by simp [chat])
  | obj message =>
    rcases chat_obj_cases message env with h | ⟨fd, tn, hfd, htn, h⟩ | ⟨b, h⟩
    · rw [h] at hg; simp at hg
    · rw [h] at hg; simp at hg
    · rw [h]; simp [genStep, ht]

/-- Witness for C2: a concrete request whose generative call times out. -/
theorem chat_timeout_reply_witness :
    (chat (ReqBody.obj (some "hello")) ⟨HttpOutcome.err, CallResult.timeout⟩).genCalled = true ∧
    (chat (ReqBody.obj (some "hello")) ⟨HttpOutcome.err, CallResult.timeout⟩).result =
      ChatResult.response "⚠️ AI took too long. Try again." 200 :=
  ⟨by decide, chat_timeout_reply _ _ (by decide) rfl⟩

/-- C3 counterexample: a request whose parsed JSON body is not an object
(`null`, an array, ...) makes `data.get("message", "")` on line 95 raise
`AttributeError` before the `try` block, so an exception escapes the
handler instead of any fixed JSON reply. -/
theorem chat_nonObj_propagates :
    (chat ReqBody.nonObj ⟨HttpOutcome.err, CallResult.ok "hi"⟩).result =
      ChatResult.exnPropagated := by decide

/-- C3 amended: for requests whose JSON body is an object, no exception
escapes the handler, and any non-timeout exception raised in the
nutrition or generative branches yields the fixed 500 reply. -/
theorem chat_try_catches (message : Option String) (env : Env) :
    (chat (ReqBody.obj message) env).result ≠ ChatResult.exnPropagated ∧
    ((chat (ReqBody.obj message) env).genCalled = true → env.genResult = CallResult.error →
      (chat (ReqBody.obj message) env).result =
        ChatResult.response "⚠ Something went wrong. Try again." 500) := by
  rcases chat_obj_cases message env with h | ⟨fd, tn, hfd, htn, h⟩ | ⟨b, h⟩
  · rw [h]
    exact ⟨by simp, fun hg _ => by simp at hg⟩
  · rw [h]
    exact ⟨by simp, fun hg _ => by simp at hg⟩
  · rw [h]
    constructor
    · cases hr : env.genResult <;> simp [genStep, hr]
    · intro _ he; simp [genStep, he]

/-- Witness for C3 amended: a concrete object request whose generative
call raises a generic exception. -/
theorem chat_try_catches_witness :
    (chat (ReqBody.obj (some "hi")) ⟨HttpOutcome.err, CallResult.error⟩).result ≠
      ChatResult.exnPropagated ∧
    (chat (ReqBody.obj (some "hi")) ⟨HttpOutcome.err, CallResult.error⟩).result =
      ChatResult.response "⚠ Something went wrong. Try again." 500 :=
  ⟨(chat_try_catches _ _).1, (chat_try_catches _ _).2 (by decide) rfl⟩

/-- C4 counterexample: the message `"food"` matches the claim's keyword
set (which includes `"food"` and `"ingredient"`), yet the handler takes
the direct-AI branch, because line 106's list has only the six keywords
`calorie`, `nutrition`, `protein`, `fat`, `carbs`, `vitamin`. -/
theorem keyword_claim_cx :
    (claimKeywords.any (fun w => listContainsSub (pyLower "food").data w.data)) = true ∧
    (chat (ReqBody.obj (some "food")) ⟨HttpOutcome.err, CallResult.ok "ok"⟩).nutritionCalled
      = false ∧
    (chat (ReqBody.obj (some "food")) ⟨HttpOutcome.err, CallResult.ok "ok"⟩).genCalled
      = true := by decide

/-- C4 amended: for every non-empty message, the handler takes the
nutrition branch iff the lowercased message contains one of exactly
`calorie`, `nutrition`, `protein`, `fat`, `carbs`, `vitamin` as a
substring, and otherwise invokes the generative backend directly. -/
theorem chat_branch_iff (msg : String) (env : Env) (hm : msg ≠ "") :
    ((chat (ReqBody.obj (some msg)) env).nutritionCalled = true ↔
      (["calorie", "nutrition", "protein", "fat", "carbs", "vitamin"].any
        (fun w => listContainsSub (pyLower msg).data w.data)) = true) ∧
    ((["calorie", "nutrition", "protein", "fat", "carbs", "vitamin"].any
        (fun w => listContainsSub (pyLower msg).data w.data)) = false →
      (chat (ReqBody.obj (some msg)) env).genCalled = true) := by
  have hk : (["calorie", "nutrition", "protein", "fat", "carbs", "vitamin"].any
      (fun w => listContainsSub (pyLower msg).data w.data)) = isNutritionQuery msg := rfl
  rw [hk, chat_nutritionCalled_eq msg env hm]
  refine ⟨Iff.rfl, fun hq => ?_⟩
  simp [chat, hm, hq, genStep_genCalled]

/-- Witness for C4 amended: the message `"protein"` is classified into
the nutrition branch. -/
theorem chat_branch_iff_witness :
    ("protein" ≠ "") ∧
    (chat (ReqBody.obj (some "protein")) ⟨HttpOutcome.err, CallResult.ok "t"⟩).nutritionCalled
      = true :=
  ⟨by decide, (chat_branch_iff "protein" ⟨HttpOutcome.err, CallResult.ok "t"⟩
      (by decide)).1.mpr (by decide)⟩

/-- C5: when the nutrition lookup returns a record containing
`totalNutrients`, the reply is built from that record's numeric fields
alone by the template of lines 111-116 (calories `:.0f`, macros `:.1f`,
each defaulting to 0 when absent), and the generative backend is never
called (`genCalled = false`). -/
theorem chat_nutrition_record (msg : String) (env : Env) (fd : FoodData) (tn : TotalNutrients)
    (hm : msg ≠ "") (hq : isNutritionQuery msg = true)
    (hfd : get_food_data env.foodOutcome = some fd) (htn : fd.totalNutrients = some tn) :
    chat (ReqBody.obj (some msg)) env =
      ⟨ChatResult.response (clean_response (nutritionReply fd tn)) 200, true, false⟩ := by
  simp [chat, hm, hq, hfd, htn]

/-- Witness for C5: a concrete full record (365 kcal, 13.1 g protein,
7.2 g fat, 28 g carbs), with the formatted reply evaluated. -/
theorem chat_nutrition_record_witness :
    isNutritionQuery "protein shake" = true ∧
    chat (ReqBody.obj (some "protein shake"))
        ⟨HttpOutcome.ok 200 (some ⟨some (mkRat 365 1),
          some ⟨some (mkRat 131 10), some (mkRat 72 10), some (mkRat 28 1)⟩⟩),
         CallResult.error⟩ =
      ⟨ChatResult.response (clean_response (nutritionReply
          ⟨some (mkRat 365 1),
            some ⟨some (mkRat 131 10), some (mkRat 72 10), some (mkRat 28 1)⟩⟩
          ⟨some (mkRat 131 10), some (mkRat 72 10), some (mkRat 28 1)⟩)) 200, true, false⟩ ∧
    clean_response (nutritionReply
        ⟨some (mkRat 365 1),
          some ⟨some (mkRat 131 10), some (mkRat 72 10), some (mkRat 28 1)⟩⟩
        ⟨some (mkRat 131 10), some (mkRat 72 10), some (mkRat 28 1)⟩) =
      "🍛 365 kcal | Protein: 13.1 g | Fat: 7.2 g | Carbs: 28.0 g" :=
  ⟨by decide, chat_nutrition_record _ _ _ _ (by decide) (by decide) rfl rfl, by decide⟩

/-- C6 counterexample: a 200 response whose body lacks `totalNutrients`
is returned as-is by `get_food_data` (line 77 returns `res.json()`
without checking fields), not as the `None` unavailable result the claim
asserts. -/
theorem get_food_data_fields_cx :
    get_food_data (HttpOutcome.ok 200 (some ⟨some (mkRat 100 1), none⟩)) =
      some ⟨some (mkRat 100 1), none⟩ ∧
    (FoodData.mk (some (mkRat 100 1)) none).totalNutrients = none ∧
    get_food_data (HttpOutcome.ok 200 (some ⟨some (mkRat 100 1), none⟩)) ≠ none :=
  ⟨rfl, rfl, by simp [get_food_data]⟩

/-- C6 amended: `get_food_data` never raises (it is a total function into
`Option`); it returns the unavailable result `None` on any transport
error or non-200 status, but returns a 200 body unchanged even when the
expected nutrient fields are missing — it is the caller (`chat`,
line 110) that treats a record without `totalNutrients` as
unavailability, falling back to the generative branch as a normal
branch. -/
theorem get_food_data_amended :
    (∀ b, get_food_data (HttpOutcome.ok 200 b) = b) ∧
    (∀ s b, s ≠ 200 → get_food_data (HttpOutcome.ok s b) = none) ∧
    get_food_data HttpOutcome.err = none ∧
    (∀ msg env fd, msg ≠ "" → isNutritionQuery msg = true →
      get_food_data env.foodOutcome = some fd → fd.totalNutrients = none →
      chat (ReqBody.obj (some msg)) env = genStep env true) := by
  refine ⟨fun b => by simp [get_food_data], fun s b hs => by simp [get_food_data, hs],
    rfl, fun msg env fd hm hq hfd htn => ?_⟩
  simp [chat, hm, hq, hfd, htn]

/-- Witness for C6 amended: a 500 status yields `None`, and a 200 body
without `totalNutrients` sends the handler to the generative fallback. -/
theorem get_food_data_amended_witness :
    get_food_data (HttpOutcome.ok 500 (some ⟨some (mkRat 100 1), none⟩)) = none ∧
    chat (ReqBody.obj (some "protein"))
        ⟨HttpOutcome.ok 200 (some ⟨some (mkRat 100 1), none⟩), CallResult.ok "hi"⟩ =
      genStep ⟨HttpOutcome.ok 200 (some ⟨some (mkRat 100 1), none⟩), CallResult.ok "hi"⟩ true :=
  ⟨get_food_data_amended.2.1 500 _ (by decide),
   get_food_data_amended.2.2.2 "protein" _ ⟨some (mkRat 100 1), none⟩
     (by decide) (by decide) rfl rfl⟩

/-- C7: a missing or empty `message` field yields exactly the fixed
`Please ask something.` reply with status 400, with neither backend
called. -/
theorem chat_empty_message (message : Option String) (env : Env)
    (hm : message = none ∨ message = some "") :
    chat (ReqBody.obj message) env =
      ⟨ChatResult.response "Please ask something." 400, false, false⟩ := by
  rcases hm with h | h <;> subst h <;> rfl

/-- Witness for C7: the empty-string message. -/
theorem chat_empty_message_witness :
    ((some "" : Option String) = none ∨ (some "" : Option String) = some "") ∧
    chat (ReqBody.obj (some "")) ⟨HttpOutcome.err, CallResult.error⟩ =
      ⟨ChatResult.response "Please ask something." 400, false, false⟩ :=
  ⟨Or.inr rfl, chat_empty_message (some "") ⟨HttpOutcome.err, CallResult.error⟩ (Or.inr rfl)⟩

set_option maxRecDepth 40000 in
/-- C8 counterexample: a 260-character input whose 250-character
truncation has a `'.'` at index 235 and a later `'!'` at index 245, both
inside the trailing-20 window.  The claim's cut at the last sentence
terminator would keep 246 characters; the code checks `'.'` first
(line 56's loop order) and cuts at the last `'.'`, keeping 236. -/
theorem clean_response_trunc_cx :
    (cleanedText exC8).length = 260 ∧
    clean_response exC8 ≠ String.mk (claimTrunc (cleanedText exC8)) ∧
    (clean_response exC8).length = 236 ∧
    (String.mk (claimTrunc (cleanedText exC8))).length = 246 := by decide

/-- C8 amended: for every input whose cleaned text exceeds 250
characters, `clean_response` truncates to 250 characters and checks
`'.'`, `'!'`, `'?'` in that fixed order; for the first of these occurring
in the trailing 20 characters of the truncation it cuts at (and
including) its last occurrence, otherwise it keeps the hard cut; no
further whitespace trimming is applied after truncation. -/
theorem clean_response_trunc (s : String) (h : 250 < (cleanedText s).length) :
    clean_response s = String.mk (truncSpec (cleanedText s)) := by
  have hs : s ≠ "" := by
    intro he
    rw [he] at h
    exact absurd h (by decide)
  rw [clean_response, if_neg hs, truncStep_eq_truncSpec _ h]

set_option maxRecDepth 40000 in
/-- Witness for C8 amended: a 300-character input with a period at index
240 and no later terminator is cut at that period (241 characters, ending
in `'.'`), not at the hard 250 cut. -/
theorem clean_response_trunc_witness :
    250 < (cleanedText ex300).length ∧
    clean_response ex300 = String.mk (truncSpec (cleanedText ex300)) ∧
    (clean_response ex300).length = 241 ∧
    (clean_response ex300).data.getLast? = some '.' :=
  ⟨by decide, clean_response_trunc ex300 (by decide), by decide, by decide⟩

/-- C9 counterexample: the input `"a  b"` (two interior spaces) is
returned unchanged, with a run of two whitespace characters, because
line 52 collapses only newline runs, not general whitespace runs. -/
theorem clean_response_ws_cx :
    clean_response "a  b" = "a  b" ∧
    hasDoubleWhitespace (clean_response "a  b").data = true := by decide

/-- C9 amended: `clean_response` collapses every newline run into a
single space, so its output never contains a newline character; runs of
other whitespace are not collapsed and may remain in the output. -/
theorem clean_response_no_newline (s : String) : '\n' ∉ (clean_response s).data := by
  rw [clean_response]
  split
  · decide
  · intro hmem
    have h1 : '\n' ∈ truncStep (cleanedText s) := hmem
    have h2 := truncStep_subset h1
    have h3 := stripChars_subset
      (show '\n' ∈ stripChars (collapseNewlines (removeStars (stripChars s.data))) from h2)
    exact collapseNewlines_not_mem _ h3

/-- C10: a whitespace-only input and an asterisk-only input — both
non-empty — produce the empty string, while only the input that is empty
before any cleaning produces the fixed fallback sentence. -/
theorem clean_response_empty_out :
    "   " ≠ "" ∧ clean_response "   " = "" ∧
    "***" ≠ "" ∧ clean_response "***" = "" ∧
    clean_response "" = FALLBACK := by decide

end MealPlanner
